import Mathlib

/-!
Shallow embedding of the clipboard gateway in
src/rust-search-ui/src/clipboard.rs.

The file under verification exposes two functions, set_text and get_text.
Each has two conditionally compiled bodies:

* the subprocess backend, guarded by cfg(any(feature = "termux",
  target_os = "android")), which shells out to the external programs
  termux-clipboard-set and termux-clipboard-get;
* the native backend, guarded by cfg(all(not(feature = "termux"),
  not(target_os = "android"))), which delegates to the arboard crate.

The claims under examination concern the subprocess backend and the two
cfg guards.  The subprocess backend is embedded as a deterministic
function of an explicit world record describing the outcome of every
operating-system interaction the Rust code performs (process spawning,
writing to the child standard input, waiting for the exit status,
capturing standard output).  Rust io errors are modelled by an opaque
record carrying an error kind; anyhow errors produced by the macro
bail!("...") are modelled by a message constructor carrying the exact
literal string from the source.

Resource handling is made observable through an event trace: the
embedding records when the child is spawned, when the taken stdin
handle is dropped (Rust drops a ChildStdin at scope end, which closes
the pipe, including on an early return caused by the question-mark
operator), and when child.wait() is invoked (Rust does not wait on a
Child merely because it is dropped).
-/

/-- Kind of an operating-system io error, mirroring std::io::ErrorKind
for the kinds the claims mention; every other kind is collapsed into a
numbered catch-all. -/
inductive IoErrorKind where
  | notFound
  | permissionDenied
  | brokenPipe
  | other : Nat → IoErrorKind
deriving DecidableEq, Repr

/-- An operating-system io error value, as propagated unchanged by the
Rust question-mark operator. -/
structure IoError where
  kind : IoErrorKind
deriving DecidableEq, Repr

/-- An error as returned by the anyhow-based Result of the source: either
an io error propagated by the question-mark operator, or the message of
an anyhow bail! macro invocation. -/
inductive ClipError where
  | ioError : IoError → ClipError
  | message : String → ClipError
deriving DecidableEq, Repr

deriving instance DecidableEq for Except

/-- What Command::spawn returned for the set helper: the relevant
observable of a freshly spawned child is whether child.stdin is Some
(the source pipes stdin, then defensively matches on Option). -/
structure ChildDesc where
  stdinPresent : Bool
deriving DecidableEq, Repr

/-- One run of the environment around the subprocess set_text body:
the outcome of each operating-system interaction the code performs. -/
structure SetWorld where
  /-- Outcome of Command::new("termux-clipboard-set").stdin(piped).spawn(). -/
  spawn : Except IoError ChildDesc
  /-- Outcome of stdin.write_all(text.as_bytes()), when it is reached. -/
  writeResult : Except IoError Unit
  /-- Number of bytes the pipe accepted before a failing write_all
  returned its error. -/
  partialWritten : Nat
  /-- Outcome of child.wait(): Except.ok b means a status with
  status.success() = b; Except.error is an io failure of wait itself. -/
  waitResult : Except IoError Bool
deriving DecidableEq, Repr

/-- Resource events of one subprocess set_text run, in program order. -/
inductive SetEvent where
  | spawned
  | stdinClosed
  | waited
deriving DecidableEq, Repr

/-- Result of a subprocess set_text run: the returned value, the trace
of resource events, and the bytes actually delivered to the child on
its standard input. -/
structure SetOutcome where
  result : Except ClipError Unit
  events : List SetEvent
  written : List Nat
deriving DecidableEq, Repr

/-- UTF-8 encoding of one scalar value, as in the Rust str::as_bytes
representation (bytes as naturals below 256). -/
def utf8EncodeChar (c : Char) : List Nat :=
  if c.toNat < 0x80 then
    [c.toNat]
  else if c.toNat < 0x800 then
    [0xC0 + c.toNat / 64, 0x80 + c.toNat % 64]
  else if c.toNat < 0x10000 then
    [0xE0 + c.toNat / 4096, 0x80 + c.toNat / 64 % 64, 0x80 + c.toNat % 64]
  else
    [0xF0 + c.toNat / 262144, 0x80 + c.toNat / 4096 % 64,
      0x80 + c.toNat / 64 % 64, 0x80 + c.toNat % 64]

/-- The byte sequence text.as_bytes() of a Rust string: concatenated
UTF-8 encodings of its characters. -/
def strToUtf8 (s : String) : List Nat :=
  (s.data.map utf8EncodeChar).flatten

/-- The Unicode replacement character U+FFFD. -/
def replacementChar : Char := Char.ofNat 0xFFFD

/-- One step of lossy UTF-8 decoding, following String::from_utf8_lossy
of the Rust standard library.  Given a lead byte b and the bytes bs
after it, it returns the decoded character together with the remaining
bytes: a well-formed sequence decodes to its scalar value and all of its
bytes are consumed; for an ill-formed sequence the maximal subpart (the
lead together with the continuation bytes that were still acceptable) is
replaced by one U+FFFD and decoding resumes at the first byte that broke
the sequence; a truncated sequence at the end of input yields a single
U+FFFD.  Continuation bytes are fetched with getD, whose out-of-range
default 0 fails every continuation-range test, so a missing byte and an
invalid byte take the same branch. -/
def utf8Step (b : Nat) (bs : List Nat) : Char × List Nat :=
  if b < 0x80 then
    (Char.ofNat b, bs)
  else if b < 0xC2 then
    (replacementChar, bs)
  else if b < 0xE0 then
    if 0x80 ≤ bs.getD 0 0 ∧ bs.getD 0 0 < 0xC0 then
      (Char.ofNat ((b - 0xC0) * 64 + (bs.getD 0 0 - 0x80)), bs.drop 1)
    else
      (replacementChar, bs)
  else if b < 0xF0 then
    if (if b = 0xE0 then 0xA0 else 0x80) ≤ bs.getD 0 0 ∧
        bs.getD 0 0 < (if b = 0xED then 0xA0 else 0xC0) then
      if 0x80 ≤ bs.getD 1 0 ∧ bs.getD 1 0 < 0xC0 then
        (Char.ofNat ((b - 0xE0) * 4096 + (bs.getD 0 0 - 0x80) * 64 +
          (bs.getD 1 0 - 0x80)), bs.drop 2)
      else
        (replacementChar, bs.drop 1)
    else
      (replacementChar, bs)
  else if b < 0xF5 then
    if (if b = 0xF0 then 0x90 else 0x80) ≤ bs.getD 0 0 ∧
        bs.getD 0 0 < (if b = 0xF4 then 0x90 else 0xC0) then
      if 0x80 ≤ bs.getD 1 0 ∧ bs.getD 1 0 < 0xC0 then
        if 0x80 ≤ bs.getD 2 0 ∧ bs.getD 2 0 < 0xC0 then
          (Char.ofNat ((b - 0xF0) * 262144 + (bs.getD 0 0 - 0x80) * 4096 +
            (bs.getD 1 0 - 0x80) * 64 + (bs.getD 2 0 - 0x80)), bs.drop 3)
        else
          (replacementChar, bs.drop 2)
      else
        (replacementChar, bs.drop 1)
    else
      (replacementChar, bs)
  else
    (replacementChar, bs)

/-- A decoding step never lengthens the remaining input. -/
theorem utf8Step_rest_length (b : Nat) (bs : List Nat) :
    ((utf8Step b bs).2).length ≤ bs.length := by
  unfold utf8Step
  repeat' split
  all_goals simp

/-- Lossy UTF-8 decoding of a byte list to a character list: iterate
utf8Step until the input is exhausted. -/
def utf8LossyChars (l : List Nat) : List Char :=
  match l with
  | [] => []
  | b :: bs =>
    (utf8Step b bs).1 :: utf8LossyChars (utf8Step b bs).2
termination_by l.length
decreasing_by
  exact Nat.lt_succ_of_le (utf8Step_rest_length b bs)

/-- String::from_utf8_lossy(bytes).to_string() of the source. -/
def utf8Lossy (bs : List Nat) : String :=
  String.mk (utf8LossyChars bs)

/-- The tail of the subprocess set_text body from child.wait() on:
propagate an io failure of wait, return unit on a success status, and
reach the anyhow bail! with its literal message on a failure status. -/
def setWaitOutcome (w : SetWorld) : Except ClipError Unit :=
  match w.waitResult with
  | .error e => .error (.ioError e)
  | .ok true => .ok ()
  | .ok false => .error (.message "termux-clipboard-set failed")

/-- The subprocess backend body of set_text, as a function of the text
and of the world describing each operating-system interaction.  Mirrors
the source: spawn with piped stdin (propagating a spawn error with
nothing else having happened); if child.stdin is Some, take it and
write_all the UTF-8 bytes of text, the taken handle being dropped and
the pipe closed when its scope ends on every path, including the early
return of a failing write (which skips child.wait entirely); then wait
and map the exit status as in setWaitOutcome. -/
def set_text (text : String) (w : SetWorld) : SetOutcome :=
  match w.spawn with
  | .error e =>
    { result := .error (.ioError e), events := [], written := [] }
  | .ok child =>
    if child.stdinPresent then
      match w.writeResult with
      | .error e =>
        { result := .error (.ioError e)
          events := [.spawned, .stdinClosed]
          written := (strToUtf8 text).take w.partialWritten }
      | .ok _ =>
        { result := setWaitOutcome w
          events := [.spawned, .stdinClosed, .waited]
          written := strToUtf8 text }
    else
      { result := setWaitOutcome w
        events := [.spawned, .waited]
        written := [] }

/-- What Command::output() produced for the get helper when it ran to
completion: the final status (as status.success()) and the captured
standard output bytes. -/
structure GetOutput where
  statusSuccess : Bool
  stdout : List Nat
deriving DecidableEq, Repr

/-- One run of the environment around the subprocess get_text body:
Command::new("termux-clipboard-get").output() is a single fallible
operation in the source, returning either an io error (in particular a
spawn failure such as a missing executable) or a completed Output. -/
structure GetWorld where
  output : Except IoError GetOutput
deriving DecidableEq, Repr

/-- The subprocess backend body of get_text: propagate an io failure of
Command::output() unchanged; on a success status return the lossy UTF-8
decoding of the captured stdout bytes; on a failure status reach the
anyhow bail! with its literal message. -/
def get_text (w : GetWorld) : Except ClipError String :=
  match w.output with
  | .error e => .error (.ioError e)
  | .ok out =>
    if out.statusSuccess then
      .ok (utf8Lossy out.stdout)
    else
      .error (.message "termux-clipboard-get failed")

/-- The conditional-compilation guard of the subprocess branch:
cfg(any(feature = "termux", target_os = "android")), as a function of
the two build-time atoms. -/
def termuxCfg (termuxFeature targetAndroid : Bool) : Bool :=
  termuxFeature || targetAndroid

/-- The conditional-compilation guard of the native branch:
cfg(all(not(feature = "termux"), not(target_os = "android"))). -/
def nativeCfg (termuxFeature targetAndroid : Bool) : Bool :=
  !termuxFeature && !targetAndroid

/-- Every character code point is a valid Unicode scalar value: below
the surrogate range or above it and below 0x110000. -/
theorem char_toNat_valid (c : Char) :
    c.toNat < 0xD800 ∨ (0xE000 ≤ c.toNat ∧ c.toNat < 0x110000) := c.valid

/-- A decoding step consumes exactly the UTF-8 encoding of a character
and returns that character: the encoder output always takes the
well-formed branch of utf8Step. -/
theorem utf8Step_encode (c : Char) (bs : List Nat) :
    utf8Step ((utf8EncodeChar c).headD 0) ((utf8EncodeChar c).tail ++ bs)
      = (c, bs) := by
  have hval := char_toNat_valid c
  have hofn := Char.ofNat_toNat c
  by_cases h1 : c.toNat < 0x80
  · rw [utf8EncodeChar, if_pos h1]
    simp only [List.headD, List.tail, List.nil_append]
    rw [utf8Step, if_pos h1, hofn]
  · by_cases h2 : c.toNat < 0x800
    · rw [utf8EncodeChar, if_neg h1, if_pos h2]
      simp only [List.headD, List.tail, List.cons_append, List.nil_append]
      rw [utf8Step, if_neg (by omega), if_neg (by omega), if_pos (by omega)]
      simp only [List.getD_cons_zero, List.drop_succ_cons, List.drop_zero]
      rw [if_pos (by omega)]
      have harg : (0xC0 + c.toNat / 64 - 0xC0) * 64 + (0x80 + c.toNat % 64 - 0x80)
          = c.toNat := by omega
      rw [harg, hofn]
    · by_cases h3 : c.toNat < 0x10000
      · rw [utf8EncodeChar, if_neg h1, if_neg h2, if_pos h3]
        simp only [List.headD, List.tail, List.cons_append, List.nil_append]
        rw [utf8Step, if_neg (by omega), if_neg (by omega), if_neg (by omega),
          if_pos (by omega)]
        simp only [List.getD_cons_zero, List.getD_cons_succ,
          List.drop_succ_cons, List.drop_zero]
        rw [if_pos (by constructor <;> split <;> omega), if_pos (by omega)]
        have harg : (0xE0 + c.toNat / 4096 - 0xE0) * 4096 +
            (0x80 + c.toNat / 64 % 64 - 0x80) * 64 +
            (0x80 + c.toNat % 64 - 0x80) = c.toNat := by omega
        rw [harg, hofn]
      · rw [utf8EncodeChar, if_neg h1, if_neg h2, if_neg h3]
        simp only [List.headD, List.tail, List.cons_append, List.nil_append]
        rw [utf8Step, if_neg (by omega), if_neg (by omega), if_neg (by omega),
          if_neg (by omega), if_pos (by omega)]
        simp only [List.getD_cons_zero, List.getD_cons_succ,
          List.drop_succ_cons, List.drop_zero]
        rw [if_pos (by constructor <;> split <;> omega), if_pos (by omega),
          if_pos (by omega)]
        have harg : (0xF0 + c.toNat / 262144 - 0xF0) * 262144 +
            (0x80 + c.toNat / 4096 % 64 - 0x80) * 4096 +
            (0x80 + c.toNat / 64 % 64 - 0x80) * 64 +
            (0x80 + c.toNat % 64 - 0x80) = c.toNat := by omega
        rw [harg, hofn]

/-- The UTF-8 encoding of a character is never empty. -/
theorem utf8EncodeChar_ne_nil (c : Char) : utf8EncodeChar c ≠ [] := by
  unfold utf8EncodeChar
  repeat' split
  all_goals simp

/-- Decoding the encoding of a character prepended to any byte list
yields that character followed by the decoding of the rest. -/
theorem utf8LossyChars_encode (c : Char) (bs : List Nat) :
    utf8LossyChars (utf8EncodeChar c ++ bs) = c :: utf8LossyChars bs := by
  have h := utf8Step_encode c bs
  obtain ⟨a, t, he⟩ : ∃ a t, utf8EncodeChar c = a :: t := by
    cases hx : utf8EncodeChar c with
    | nil => exact absurd hx (utf8EncodeChar_ne_nil c)
    | cons a t => exact ⟨a, t, rfl⟩
  rw [he] at h ⊢
  simp only [List.headD, List.tail] at h
  simp only [List.cons_append, utf8LossyChars]
  rw [h]

/-- Decoding the concatenated encodings of a character list recovers
the list. -/
theorem utf8LossyChars_roundTrip (l : List Char) :
    utf8LossyChars ((l.map utf8EncodeChar).flatten) = l := by
  induction l with
  | nil => simp only [List.map_nil, List.flatten_nil, utf8LossyChars]
  | cons c t ih =>
    simp only [List.map_cons, List.flatten_cons]
    rw [utf8LossyChars_encode, ih]

/-- Lossy UTF-8 decoding is a left inverse of UTF-8 encoding on
strings: the embedding of the round-trip law at the byte level. -/
theorem utf8Lossy_strToUtf8 (s : String) : utf8Lossy (strToUtf8 s) = s := by
  cases s with
  | mk data =>
    show String.mk (utf8LossyChars ((data.map utf8EncodeChar).flatten))
      = String.mk data
    rw [utf8LossyChars_roundTrip]

/-- C1: for every UTF-8 string s, if the subprocess set helper is
spawned with a stdin handle and set_text s succeeds, then on a backend
that faithfully echoes input (a clipboard state holding exactly the
bytes written to the set helper, returned by a successful get helper)
get_text returns s unchanged, including the empty string and strings
with newlines or control characters. -/
theorem set_get_roundTrip (s : String) (w : SetWorld) (child : ChildDesc)
    (hspawn : w.spawn = .ok child) (hstdin : child.stdinPresent = true)
    (hok : (set_text s w).result = .ok ()) :
    get_text ⟨.ok ⟨true, (set_text s w).written⟩⟩ = .ok s := by
  cases hw : w.writeResult with
  | error e =>
    simp only [set_text, hspawn, hstdin, hw, if_true] at hok
    exact absurd hok (by simp)
  | ok u =>
    simp only [set_text, hspawn, hstdin, hw, if_true, get_text]
    rw [utf8Lossy_strToUtf8]

/-- C1 witness: the concrete empty-string scenario on an all-success
run of the set helper followed by an echoing get helper. -/
theorem set_get_roundTrip_witness :
    (⟨.ok ⟨true⟩, .ok (), 0, .ok true⟩ : SetWorld).spawn = .ok ⟨true⟩ ∧
      (⟨true⟩ : ChildDesc).stdinPresent = true ∧
      (set_text "" ⟨.ok ⟨true⟩, .ok (), 0, .ok true⟩).result = .ok () ∧
      get_text ⟨.ok ⟨true,
        (set_text "" ⟨.ok ⟨true⟩, .ok (), 0, .ok true⟩).written⟩⟩ = .ok "" :=
  ⟨rfl, rfl, rfl, set_get_roundTrip "" _ _ rfl rfl rfl⟩

/-- C2 counterexample: a run in which the set helper spawns and its
exit status is a failure, but the write to its stdin fails first (for
example with a broken pipe, the typical symptom of a helper that dies
early): set_text returns the propagated io error of the write, not the
HelperProcessFailed message, refuting the claim as universally stated
over all such runs. -/
theorem set_helper_failure_ce :
    (set_text "x" ⟨.ok ⟨true⟩, .error ⟨.brokenPipe⟩, 0, .ok false⟩).result
        = .error (.ioError ⟨.brokenPipe⟩) ∧
      (set_text "x" ⟨.ok ⟨true⟩, .error ⟨.brokenPipe⟩, 0, .ok false⟩).result
        ≠ .error (.message "termux-clipboard-set failed") := by
  exact ⟨rfl, by decide⟩

/-- C2 amended: in every run in which the set helper spawns and its
exit status is a failure, set_text never returns success; and it
returns the HelperProcessFailed message naming the helper provided the
write to the stdin of the child did not itself fail (a failing write is
returned as that io error instead, before the status is observed). -/
theorem set_helper_failure (text : String) (w : SetWorld) (child : ChildDesc)
    (hspawn : w.spawn = .ok child) (hwait : w.waitResult = .ok false) :
    (set_text text w).result ≠ .ok () ∧
      ((child.stdinPresent = true → w.writeResult = .ok ()) →
        (set_text text w).result
          = .error (.message "termux-clipboard-set failed")) := by
  cases hst : child.stdinPresent with
  | false =>
    simp [set_text, hspawn, hst, setWaitOutcome, hwait]
  | true =>
    cases hw : w.writeResult with
    | error e =>
      simp [set_text, hspawn, hst, hw]
    | ok u =>
      simp [set_text, hspawn, hst, hw, setWaitOutcome, hwait]

/-- C2 witness: a run with a successful spawn and write and a failing
exit status yields the HelperProcessFailed message and not success. -/
theorem set_helper_failure_witness :
    (⟨.ok ⟨true⟩, .ok (), 0, .ok false⟩ : SetWorld).spawn = .ok ⟨true⟩ ∧
      (⟨.ok ⟨true⟩, .ok (), 0, .ok false⟩ : SetWorld).waitResult = .ok false ∧
      ((set_text "x" ⟨.ok ⟨true⟩, .ok (), 0, .ok false⟩).result ≠ .ok () ∧
        (((⟨true⟩ : ChildDesc).stdinPresent = true →
            (⟨.ok ⟨true⟩, .ok (), 0, .ok false⟩ : SetWorld).writeResult = .ok ()) →
          (set_text "x" ⟨.ok ⟨true⟩, .ok (), 0, .ok false⟩).result
            = .error (.message "termux-clipboard-set failed"))) :=
  ⟨rfl, rfl, set_helper_failure "x" _ _ rfl rfl⟩

/-- C3: in every run in which the get helper runs to completion with a
failure exit status, get_text returns the HelperProcessFailed message
naming the helper, and returns no string at all. -/
theorem get_helper_failure (w : GetWorld) (out : GetOutput)
    (hout : w.output = .ok out) (hfail : out.statusSuccess = false) :
    get_text w = .error (.message "termux-clipboard-get failed") ∧
      ∀ s : String, get_text w ≠ .ok s := by
  simp only [get_text, hout, hfail]
  exact ⟨by simp, fun s => by simp⟩

/-- C3 witness: a get helper exiting with status 1 while having emitted
bytes on stdout still yields the HelperProcessFailed message and in
particular not the captured bytes as a string. -/
theorem get_helper_failure_witness :
    (⟨.ok ⟨false, [103, 97, 114]⟩⟩ : GetWorld).output
        = .ok ⟨false, [103, 97, 114]⟩ ∧
      (⟨false, [103, 97, 114]⟩ : GetOutput).statusSuccess = false ∧
      (get_text ⟨.ok ⟨false, [103, 97, 114]⟩⟩
          = .error (.message "termux-clipboard-get failed") ∧
        ∀ s : String, get_text ⟨.ok ⟨false, [103, 97, 114]⟩⟩ ≠ .ok s) :=
  ⟨rfl, rfl, get_helper_failure _ _ rfl rfl⟩

/-- C4: in every run in which the get helper runs to completion with a
success exit status, get_text returns a string for every byte sequence
on stdout, namely its lossy UTF-8 decoding, in which every ill-formed
byte sequence has been replaced by replacement characters; it never
fails because the bytes are not valid UTF-8. -/
theorem get_lossy_total (w : GetWorld) (out : GetOutput)
    (hout : w.output = .ok out) (hsucc : out.statusSuccess = true) :
    get_text w = .ok (utf8Lossy out.stdout) := by
  simp only [get_text, hout, hsucc, if_true]

/-- C4 witness: a successful get helper emitting the invalid byte 0xFF
followed by the letter A yields the string with a replacement character
followed by A, not a failure. -/
theorem get_lossy_total_witness :
    (⟨.ok ⟨true, [255, 65]⟩⟩ : GetWorld).output = .ok ⟨true, [255, 65]⟩ ∧
      (⟨true, [255, 65]⟩ : GetOutput).statusSuccess = true ∧
      get_text ⟨.ok ⟨true, [255, 65]⟩⟩ = .ok (utf8Lossy [255, 65]) ∧
      utf8Lossy [255, 65] = String.mk [replacementChar, Char.ofNat 65] :=
  ⟨rfl, rfl, get_lossy_total _ _ rfl rfl,
    by simp [utf8Lossy, utf8LossyChars, utf8Step]⟩

/-- C5: in every run in which a helper executable cannot be launched
(the io error of the spawn has kind notFound or permissionDenied), the
corresponding call returns exactly that propagated spawn error, a value
distinct from every HelperProcessFailed message. -/
theorem spawn_failure_typed (text : String) (e : IoError) (w : SetWorld)
    (v : GetWorld) (hw : w.spawn = .error e) (hv : v.output = .error e)
    (_hkind : e.kind = .notFound ∨ e.kind = .permissionDenied) :
    (set_text text w).result = .error (.ioError e) ∧
      get_text v = .error (.ioError e) ∧
      ∀ msg : String, ClipError.ioError e ≠ .message msg := by
  refine ⟨?_, ?_, fun msg => by simp⟩
  · simp only [set_text, hw]
  · simp only [get_text, hv]

/-- C5 witness: a missing helper executable (io error kind notFound)
makes both calls return that spawn error, which differs from the
HelperProcessFailed messages. -/
theorem spawn_failure_typed_witness :
    (⟨.error ⟨.notFound⟩, .ok (), 0, .ok true⟩ : SetWorld).spawn
        = .error ⟨.notFound⟩ ∧
      (⟨.error ⟨.notFound⟩⟩ : GetWorld).output = .error ⟨.notFound⟩ ∧
      (IoError.mk .notFound).kind = .notFound ∧
      ((set_text "x" ⟨.error ⟨.notFound⟩, .ok (), 0, .ok true⟩).result
          = .error (.ioError ⟨.notFound⟩) ∧
        get_text ⟨.error ⟨.notFound⟩⟩ = .error (.ioError ⟨.notFound⟩) ∧
        ∀ msg : String, ClipError.ioError ⟨.notFound⟩ ≠ .message msg) :=
  ⟨rfl, rfl, rfl, spawn_failure_typed "x" _ _ _ rfl rfl (Or.inl rfl)⟩

/-- C6: in every run of set_text in which the child is spawned with a
stdin handle, that handle is dropped and the pipe closed before the
call returns, on every exit path, including the early return of a
failing write. -/
theorem set_closes_stdin (text : String) (w : SetWorld) (child : ChildDesc)
    (hspawn : w.spawn = .ok child) (hstdin : child.stdinPresent = true) :
    SetEvent.stdinClosed ∈ (set_text text w).events := by
  simp only [set_text, hspawn, hstdin, if_true]
  cases w.writeResult <;> simp

/-- C6 witness: stdin is closed on a run whose write fails. -/
theorem set_closes_stdin_witness :
    (⟨.ok ⟨true⟩, .error ⟨.brokenPipe⟩, 0, .ok true⟩ : SetWorld).spawn
        = .ok ⟨true⟩ ∧
      (⟨true⟩ : ChildDesc).stdinPresent = true ∧
      SetEvent.stdinClosed ∈
        (set_text "x" ⟨.ok ⟨true⟩, .error ⟨.brokenPipe⟩, 0, .ok true⟩).events :=
  ⟨rfl, rfl, set_closes_stdin "x" _ _ rfl rfl⟩

/-- C7 counterexample: a run in which the write to the stdin of the
child fails: set_text returns without ever invoking child.wait(), so
the child process is not reaped on this failure path, refuting the
claim that the process handle is fully released on every exit path. -/
theorem set_resource_release_ce :
    SetEvent.waited ∉
      (set_text "a" ⟨.ok ⟨true⟩, .error ⟨.brokenPipe⟩, 0, .ok false⟩).events := by
  decide

/-- C7 amended: in every run of set_text that spawns a child, the taken
stdin handle is dropped and the pipe closed on every exit path, and the
child is waited on (reaped) on every exit path on which the write to
its stdin did not fail; on a failing write the call returns the io
error without waiting on the child. -/
theorem set_resource_release (text : String) (w : SetWorld) (child : ChildDesc)
    (hspawn : w.spawn = .ok child) :
    (child.stdinPresent = true →
        SetEvent.stdinClosed ∈ (set_text text w).events) ∧
      ((child.stdinPresent = true → w.writeResult = .ok ()) →
        SetEvent.waited ∈ (set_text text w).events) := by
  cases hst : child.stdinPresent with
  | false =>
    simp [set_text, hspawn, hst]
  | true =>
    cases hw : w.writeResult with
    | error e =>
      simp [set_text, hspawn, hst, hw]
    | ok u =>
      simp [set_text, hspawn, hst, hw]

/-- C7 amended witness: on an all-success run both the stdin handle and
the process handle are released. -/
theorem set_resource_release_witness :
    (⟨.ok ⟨true⟩, .ok (), 0, .ok true⟩ : SetWorld).spawn = .ok ⟨true⟩ ∧
      (((⟨true⟩ : ChildDesc).stdinPresent = true →
          SetEvent.stdinClosed ∈
            (set_text "x" ⟨.ok ⟨true⟩, .ok (), 0, .ok true⟩).events) ∧
        (((⟨true⟩ : ChildDesc).stdinPresent = true →
            (⟨.ok ⟨true⟩, .ok (), 0, .ok true⟩ : SetWorld).writeResult = .ok ()) →
          SetEvent.waited ∈
            (set_text "x" ⟨.ok ⟨true⟩, .ok (), 0, .ok true⟩).events)) :=
  ⟨rfl, set_resource_release "x" _ _ rfl⟩

/-- C8: the conditional-compilation guards of the two backends are
mutually exclusive and exhaustive: for every valuation of the termux
feature flag and the android target flag, exactly one of the two cfg
predicates holds, so exactly one backend body is compiled into each
build and no runtime value selects between them. -/
theorem cfg_exclusive_exhaustive :
    ∀ termuxFeature targetAndroid : Bool,
      (termuxCfg termuxFeature targetAndroid = true ∨
        nativeCfg termuxFeature targetAndroid = true) ∧
      ¬(termuxCfg termuxFeature targetAndroid = true ∧
        nativeCfg termuxFeature targetAndroid = true) := by
  decide

/-- C9: in every run in which the get helper succeeds and its captured
stdout bytes are the UTF-8 encoding of a string s, get_text returns
exactly s: no trimming, no removal of a trailing newline, and no other
normalization of the captured bytes. -/
theorem get_verbatim (w : GetWorld) (s : String)
    (hout : w.output = .ok ⟨true, strToUtf8 s⟩) :
    get_text w = .ok s := by
  simp only [get_text, hout, if_true]
  rw [utf8Lossy_strToUtf8]

/-- C9 witness: a helper emitting a string with a trailing newline gets
that trailing newline back in the returned string. -/
theorem get_verbatim_witness :
    (⟨.ok ⟨true, strToUtf8 "hi\n"⟩⟩ : GetWorld).output
        = .ok ⟨true, strToUtf8 "hi\n"⟩ ∧
      get_text ⟨.ok ⟨true, strToUtf8 "hi\n"⟩⟩ = .ok "hi\n" :=
  ⟨rfl, get_verbatim _ "hi\n" rfl⟩

/-- C10: in every run of set_text in which the spawned child provides
no stdin handle, the write of the text payload is silently skipped: no
bytes are delivered, no error is raised for the missing stream, and the
result is determined solely by the exit status of the child, so the
call can return success without having written any bytes. -/
theorem set_no_stdin (text : String) (w : SetWorld) (child : ChildDesc)
    (hspawn : w.spawn = .ok child) (hstdin : child.stdinPresent = false) :
    (set_text text w).written = [] ∧
      (set_text text w).result = setWaitOutcome w ∧
      (w.waitResult = .ok true → (set_text text w).result = .ok ()) := by
  simp only [set_text, hspawn, hstdin, if_false]
  exact ⟨rfl, rfl, fun h => by simp [setWaitOutcome, h]⟩

/-- C10 witness: a child without a stdin handle, a write outcome that
would fail if it were attempted, and a success exit status: set_text
returns success with no bytes written. -/
theorem set_no_stdin_witness :
    (⟨.ok ⟨false⟩, .error ⟨.brokenPipe⟩, 0, .ok true⟩ : SetWorld).spawn
        = .ok ⟨false⟩ ∧
      (⟨false⟩ : ChildDesc).stdinPresent = false ∧
      ((set_text "x" ⟨.ok ⟨false⟩, .error ⟨.brokenPipe⟩, 0, .ok true⟩).written
          = [] ∧
        (set_text "x" ⟨.ok ⟨false⟩, .error ⟨.brokenPipe⟩, 0, .ok true⟩).result
          = setWaitOutcome ⟨.ok ⟨false⟩, .error ⟨.brokenPipe⟩, 0, .ok true⟩ ∧
        ((⟨.ok ⟨false⟩, .error ⟨.brokenPipe⟩, 0, .ok true⟩ : SetWorld).waitResult
            = .ok true →
          (set_text "x" ⟨.ok ⟨false⟩, .error ⟨.brokenPipe⟩, 0, .ok true⟩).result
            = .ok ())) :=
  ⟨rfl, rfl, set_no_stdin "x" _ _ rfl rfl⟩
